import Mathlib

/-!
Shallow embedding of the conversion core of the mp3yt repository
(`convert.py`).  External effects (environment variables, filesystem
queries, the yt-dlp and pytube libraries, the ffmpeg subprocess) are
modelled as oracle fields of an `Env` record describing the world's
responses for one fixed request `(url, output_dir)`; the Python control
flow over those responses is translated function by function.  Paths are
modelled as strings with POSIX `/` separators; Python exceptions are
`Except String`.
-/

/-- Characters of the text after the last `/`, i.e. `os.path.basename`. -/
def basenameChars (cs : List Char) : List Char :=
  (cs.reverse.takeWhile (fun c => c ≠ '/')).reverse

/-- `os.path.basename` for POSIX paths. -/
def basename (p : String) : String :=
  String.mk (basenameChars p.toList)

/-- `str.lower()` (ASCII-relevant part). -/
def lowerStr (s : String) : String :=
  String.mk (s.toList.map Char.toLower)

/-- Bool prefix test on character lists (`str.startswith`). -/
def listIsPref : List Char → List Char → Bool
  | [], _ => true
  | _ :: _, [] => false
  | p :: ps, c :: cs => p == c && listIsPref ps cs

/-- `needle.startswith(pat)` on strings. -/
def strStartsWith (s pat : String) : Bool :=
  listIsPref pat.toList s.toList

/-- `s.endswith(pat)` on strings. -/
def strEndsWith (s pat : String) : Bool :=
  listIsPref pat.toList.reverse s.toList.reverse

/-- Bool substring test on character lists (Python's `pat in s`). -/
def listContains (pat : List Char) : List Char → Bool
  | [] => listIsPref pat []
  | c :: cs => listIsPref pat (c :: cs) || listContains pat cs

/-- Python's `pat in s` substring test. -/
def containsSubstr (s pat : String) : Bool :=
  listContains pat.toList s.toList

/-- `os.path.join(a, b)` for POSIX paths (the only uses in the source
join a directory with a relative name). -/
def joinPath (a b : String) : String :=
  if strStartsWith b "/" then b
  else if a = "" ∨ strEndsWith a "/" then a ++ b
  else a ++ "/" ++ b

/-- `os.path.splitext`: split off the extension beginning at the last
dot of the basename, provided some non-dot character of the basename
precedes that dot (Python's leading-dot rule). -/
def splitext (p : String) : String × String :=
  let cs := p.toList
  let name := basenameChars cs
  let dir := cs.take (cs.length - name.length)
  let lead := (name.takeWhile (fun c => c = '.')).length
  let rest := name.drop lead
  match (rest.enum.filter (fun ic => ic.2 = '.')).getLast? with
  | none => (p, "")
  | some ic =>
      (String.mk (dir ++ name.take (lead + ic.1)), String.mk (name.drop (lead + ic.1)))

/-- Python string slicing `s[:n]`. -/
def strTake (s : String) (n : Nat) : String :=
  String.mk (s.toList.take n)

/-- Python truthiness of an optional string (`None` and `""` are falsy). -/
def truthyOpt : Option String → Bool
  | none => false
  | some s => s ≠ ""

/-- Filesystem oracle: answers of `os.path.isfile` / `os.path.isdir` and
file contents (bytes as naturals) at the times the core queries them. -/
structure FS where
  isFile : String → Bool
  isDir : String → Bool
  content : String → List Nat

/-- Metadata returned by `ydl.extract_info`.  `sanitizedStem` models the
rendering of the output template `"%(title)s [%(id)s]"` (after
`restrictfilenames` sanitization) that `ydl.prepare_filename` produces
before the `.%(ext)s` suffix; `requested_downloads` models the
`"filepath"` field of each `requested_downloads` entry (`none` when the
key is missing). -/
structure Info where
  sanitizedStem : String
  requested_downloads : List (Option String)

/-- Observable side effects of the pytube fallback, and the fact that
`download_mp3` invoked the fallback at all. -/
inductive Effect where
  | pytubeDownloadEff (path : String)
  | transcodeEff (cmd src dst : String)
  | removeEff (path : String)
  | fallbackInvokedEff
deriving DecidableEq, Repr

/-- The world's responses for one `(url, output_dir)` request:
environment variables, platform, filesystem, and the outcomes of every
external call the core can make. -/
structure Env where
  /-- `os.environ.get "FFMPEG_PATH"`. -/
  ffmpegPathVar : Option String
  /-- `os.name == "nt"`. -/
  isWindows : Bool
  fs : FS
  /-- `shutil.which "ffmpeg"`. -/
  whichFfmpeg : Option String
  /-- `import imageio_ffmpeg; imageio_ffmpeg.get_ffmpeg_exe()`: an
  exception, or the returned path. -/
  imageioExe : Except String String
  /-- Outcome of `ydl.extract_info(url, download=True)` (any exception
  from the yt-dlp pass surfaces here). -/
  extractInfo : Except String Info
  /-- `from pytube import YouTube; YouTube(url)`. -/
  pytubeInit : Except String Unit
  /-- `yt.streams.filter(only_audio=True).first()` is not `None`. -/
  audioStreamAvailable : Bool
  /-- `audio_stream.download(output_path=output_dir)`: exception or the
  saved file's path. -/
  pytubeDownload : Except String String
  /-- `subprocess.run([...], check=True, capture_output=True)`. -/
  transcodeResult : Except String Unit
  /-- `os.path.exists(audio_file)` after the transcode. -/
  intermediateExists : Bool
  /-- `os.remove(audio_file)`. -/
  removeResult : Except String Unit

/-- The platform-appropriate executable name used at lines 15 and 71 of
`convert.py`. -/
def exeName (env : Env) : String :=
  if env.isWindows then "ffmpeg.exe" else "ffmpeg"

/-- Error message of line 22 of `convert.py`. -/
def dirMissingMsg (loc exe : String) : String :=
  "FFmpeg not found in FFMPEG_PATH directory: " ++ loc ++ ". Expected " ++ exe ++ " there."

/-- Error message of line 25 of `convert.py`. -/
def invalidPathMsg (loc : String) : String :=
  "FFMPEG_PATH is set but invalid: " ++ loc ++ ". Point it to ffmpeg\x27s bin directory or binary."

/-- Error message of lines 41-44 of `convert.py`. -/
def ffmpegNotFoundMsg : String :=
  "FFmpeg not found. Install it and add to PATH, set FFMPEG_PATH to its bin or binary, or install imageio-ffmpeg: pip install imageio-ffmpeg"

/-- Lines 27-44 of `_resolve_ffmpeg_location`: try `shutil.which`, then
the `imageio_ffmpeg` fallback, else fail. -/
def resolveTail (env : Env) : Except String (Option String) :=
  if truthyOpt env.whichFfmpeg then .ok none
  else
    match env.imageioExe with
    | .ok ffpath =>
        if ffpath ≠ "" ∧ env.fs.isFile ffpath then .ok (some ffpath)
        else .error ffmpegNotFoundMsg
    | .error _ => .error ffmpegNotFoundMsg

/-- `_resolve_ffmpeg_location` of `convert.py` (lines 6-44): `.ok none`
means "use PATH", `.ok (some loc)` a directory or binary path. -/
def resolve_ffmpeg_location (env : Env) : Except String (Option String) :=
  let exe := exeName env
  match env.ffmpegPathVar with
  | some loc =>
      if loc ≠ "" then
        if env.fs.isDir loc then
          if env.fs.isFile (joinPath loc exe) then .ok (some loc)
          else .error (dirMissingMsg loc exe)
        else if env.fs.isFile loc ∧ strStartsWith (lowerStr (basename loc)) "ffmpeg" then
          .ok (some loc)
        else .error (invalidPathMsg loc)
      else resolveTail env
  | none => resolveTail env

/-- Body of the `try` block of `_try_pytube_fallback` (lines 50-83 of
`convert.py`), returning the raw outcome together with its observable
effects. -/
def try_pytube_fallback_raw (env : Env) : Except String String × List Effect :=
  match env.pytubeInit with
  | .error e => (.error e, [])
  | .ok _ =>
      if ¬ env.audioStreamAvailable then (.error "No audio stream found", [])
      else
        match env.pytubeDownload with
        | .error e => (.error e, [])
        | .ok audio_file =>
            let base_name := (splitext audio_file).1
            let mp3_file := base_name ++ ".mp3"
            match resolve_ffmpeg_location env with
            | .error e => (.error e, [.pytubeDownloadEff audio_file])
            | .ok ffmpeg_loc =>
                let ffmpeg_cmd :=
                  match ffmpeg_loc with
                  | some l =>
                      if l ≠ "" then
                        if env.fs.isDir l then joinPath l (exeName env) else l
                      else "ffmpeg"
                  | none => "ffmpeg"
                match env.transcodeResult with
                | .error e =>
                    (.error e,
                     [.pytubeDownloadEff audio_file, .transcodeEff ffmpeg_cmd audio_file mp3_file])
                | .ok _ =>
                    if env.intermediateExists then
                      match env.removeResult with
                      | .error e =>
                          (.error e,
                           [.pytubeDownloadEff audio_file,
                            .transcodeEff ffmpeg_cmd audio_file mp3_file,
                            .removeEff audio_file])
                      | .ok _ =>
                          (.ok mp3_file,
                           [.pytubeDownloadEff audio_file,
                            .transcodeEff ffmpeg_cmd audio_file mp3_file,
                            .removeEff audio_file])
                    else
                      (.ok mp3_file,
                       [.pytubeDownloadEff audio_file,
                        .transcodeEff ffmpeg_cmd audio_file mp3_file])

/-- `_try_pytube_fallback` of `convert.py` (lines 46-85): any exception
escaping the `try` block is re-raised as
`"Pytube fallback failed: {e}"`. -/
def try_pytube_fallback (env : Env) (url : String) (output_dir : String) :
    Except String String × List Effect :=
  match try_pytube_fallback_raw env with
  | (.error e, fx) => (.error ("Pytube fallback failed: " ++ e), fx)
  | (.ok p, fx) => (.ok p, fx)

/-- First truthy `filepath` among the `requested_downloads` entries
(line 131 of `convert.py`). -/
def firstTruthy : List (Option String) → Option String
  | [] => none
  | some s :: rest => if s ≠ "" then some s else firstTruthy rest
  | none :: rest => firstTruthy rest

/-- The predicted output path
`ydl.prepare_filename({**info, "ext": "mp3"})` under the template
`os.path.join(output_dir, "%(title)s [%(id)s].%(ext)s")` (lines 100 and
126 of `convert.py`). -/
def predictedPath (output_dir : String) (info : Info) : String :=
  joinPath output_dir (info.sanitizedStem ++ ".mp3")

/-- The inline output resolution of lines 128-140 of `convert.py`: keep
the predicted path if it is a file; otherwise, if a recorded
`requested_downloads` filepath has an existing `.mp3` sibling (its
extension stripped and replaced by `.mp3`), take that; otherwise raise. -/
def resolveFinalMp3 (fs : FS) (final_mp3 : String) (info : Info) : Except String String :=
  let final :=
    if ¬ fs.isFile final_mp3 then
      match firstTruthy info.requested_downloads with
      | some cand =>
          let base := (splitext cand).1
          if fs.isFile (base ++ ".mp3") then base ++ ".mp3" else final_mp3
      | none => final_mp3
    else final_mp3
  if fs.isFile final then .ok final
  else .error "MP3 file not created by yt-dlp"

/-- The `try` block of lines 123-140 of `convert.py`: run the yt-dlp
pass and resolve the produced `.mp3`. -/
def primaryAttempt (env : Env) (output_dir : String) : Except String String :=
  match env.extractInfo with
  | .error e => .error e
  | .ok info => resolveFinalMp3 env.fs (predictedPath output_dir info) info

/-- The yt-dlp failure signatures of lines 146-152 of `convert.py`. -/
def blockingPatterns : List String :=
  ["Failed to extract any player response",
   "player response",
   "Sign in to confirm you\x27re not a bot",
   "HTTP Error 403",
   "HTTP Error 429"]

/-- `any(pattern in error_str for pattern in [...])`. -/
def matchesBlockingPattern (error_str : String) : Bool :=
  blockingPatterns.any (fun p => containsSubstr error_str p)

/-- Leading text of the combined error message of line 156 of
`convert.py`. -/
def msgBothPre : String :=
  "🚫 **Both yt-dlp and pytube failed on this hosting platform.**\n\n**Main Error:** "

/-- Middle text of the combined error message of line 156. -/
def msgBothMid : String :=
  "...\n\n**Fallback Error:** "

/-- Trailing text of the combined error message of line 156. -/
def msgBothTail : String :=
  "...\n\n💡 **Solutions:**\n• Try different videos (some work better)\n• Wait 15+ minutes between attempts\n• Run locally: `streamlit run main.py`\n• Use a VPS for reliable hosting"

/-- Combined error message of line 156 of `convert.py` (both strategies
failed after a matched blocking signature). -/
def msgBoth (e pytube_error : String) : String :=
  msgBothPre ++ strTake e 200 ++ msgBothMid ++ strTake pytube_error 200 ++ msgBothTail

/-- Error message of line 163 of `convert.py` (non-matching primary
error, fallback also failed: only the original error is shown). -/
def msgDownloadFailed (e : String) : String :=
  "🚫 **Download failed:** "
    ++ strTake e 300
    ++ "...\n\n💡 **This is expected on hosting platforms due to YouTube\x27s bot detection.**"

/-- `download_mp3` of `convert.py` (lines 87-163), with the effect trace
of the fallback when it is invoked. -/
def download_mp3 (env : Env) (url : String) (output_dir : String) :
    Except String String × List Effect :=
  match resolve_ffmpeg_location env with
  | .error e => (.error ("FFmpeg setup failed: " ++ e), [])
  | .ok _ =>
      match primaryAttempt env output_dir with
      | .ok p => (.ok p, [])
      | .error e =>
          let fb := try_pytube_fallback env url output_dir
          if matchesBlockingPattern e then
            match fb.1 with
            | .ok p => (.ok p, .fallbackInvokedEff :: fb.2)
            | .error pytube_error =>
                (.error (msgBoth e pytube_error), .fallbackInvokedEff :: fb.2)
          else
            match fb.1 with
            | .ok p => (.ok p, .fallbackInvokedEff :: fb.2)
            | .error _ =>
                (.error (msgDownloadFailed e), .fallbackInvokedEff :: fb.2)

/-- `open(mp3_path, "rb").read()`: the full byte content of the file at
the moment of read. -/
def readBytes (fs : FS) (p : String) : Except String (List Nat) :=
  if fs.isFile p then .ok (fs.content p)
  else .error ("No such file or directory: " ++ p)

/-- `download_mp3_bytes` of `convert.py` (lines 165-173). -/
def download_mp3_bytes (env : Env) (url : String) (output_dir : String) :
    Except String (String × List Nat) :=
  match (download_mp3 env url output_dir).1 with
  | .error e => .error e
  | .ok mp3_path =>
      match readBytes env.fs mp3_path with
      | .error e => .error e
      | .ok data => .ok (basename mp3_path, data)

/-- The extension of a filename: its suffix beginning at the last dot
(empty when the name has no dot). -/
def extension (s : String) : String :=
  let r := s.toList.reverse.takeWhile (fun c => c ≠ '.')
  if r.length = s.toList.length then ""
  else String.mk ('.' :: r.reverse)

/-! ### String infrastructure lemmas -/

theorem str_toList_append (a b : String) : (a ++ b).toList = a.toList ++ b.toList := by
  cases a; cases b; rfl

theorem str_mk_append (l r : List Char) : String.mk (l ++ r) = String.mk l ++ String.mk r := rfl

theorem str_append_assoc (a b c : String) : a ++ b ++ c = a ++ (b ++ c) := by
  cases a; cases b; cases c
  show String.mk _ = String.mk _
  rw [List.append_assoc]

theorem listIsPref_self_append (pat r : List Char) : listIsPref pat (pat ++ r) = true := by
  induction pat with
  | nil => rfl
  | cons p ps ih => simp [listIsPref, ih]

theorem listContains_of_pref {pat cs : List Char} (h : listIsPref pat cs = true) :
    listContains pat cs = true := by
  cases cs with
  | nil => exact h
  | cons c cs => simp [listContains, h]

theorem listContains_cons {pat cs : List Char} (c : Char)
    (h : listContains pat cs = true) : listContains pat (c :: cs) = true := by
  simp [listContains, h]

theorem listContains_append_self (pat l r : List Char) :
    listContains pat (l ++ (pat ++ r)) = true := by
  induction l with
  | nil => exact listContains_of_pref (listIsPref_self_append pat r)
  | cons c cs ih => exact listContains_cons c ih

/-- A string built around `p` contains `p` as a substring. -/
theorem containsSubstr_around (l p r : String) : containsSubstr (l ++ (p ++ r)) p = true := by
  unfold containsSubstr
  rw [str_toList_append, str_toList_append]
  exact listContains_append_self _ _ _

/-- Left-associated variant of `containsSubstr_around`. -/
theorem containsSubstr_piece (l p r : String) : containsSubstr (l ++ p ++ r) p = true := by
  rw [str_append_assoc]
  exact containsSubstr_around l p r

theorem extension_append_mp3 (t : String) : extension (t ++ ".mp3") = ".mp3" := by
  have key : (t ++ ".mp3").toList.reverse.takeWhile (fun c => c ≠ '.') = ['3', 'p', 'm'] := by
    rw [str_toList_append, List.reverse_append]
    rfl
  have hlen : (['3', 'p', 'm'] : List Char).length ≠ (t ++ ".mp3").toList.length := by
    rw [str_toList_append, List.length_append]
    simp only [List.length_cons, List.length_nil]
    have h4 : (String.toList ".mp3").length = 4 := rfl
    rw [h4]
    omega
  simp only [extension]
  rw [key, if_neg hlen]
  rfl

theorem basename_append_mp3 (t : String) :
    basename (t ++ ".mp3") = basename t ++ ".mp3" := by
  have key : (t ++ ".mp3").toList.reverse.takeWhile (fun c => c ≠ '/')
      = ['3', 'p', 'm', '.'] ++ t.toList.reverse.takeWhile (fun c => c ≠ '/') := by
    rw [str_toList_append, List.reverse_append]
    rfl
  unfold basename basenameChars
  rw [key, List.reverse_append, str_mk_append]
  rfl

/-- A path produced by `joinPath` from a name ending in `.mp3` itself
ends in `.mp3`. -/
theorem joinPath_mp3 (a b : String) : ∃ t, joinPath a (b ++ ".mp3") = t ++ ".mp3" := by
  unfold joinPath
  by_cases h1 : strStartsWith (b ++ ".mp3") "/" = true
  · exact ⟨b, by simp [h1]⟩
  · by_cases h2 : a = "" ∨ strEndsWith a "/"
    · exact ⟨a ++ b, by simp [h1, h2, str_append_assoc]⟩
    · exact ⟨a ++ "/" ++ b, by simp [h1, h2, str_append_assoc]⟩

/-! ### Shape of successful results -/

/-- Every successful output of the inline resolution is either the
predicted path or a `requested_downloads` sibling with `.mp3` appended. -/
theorem resolveFinalMp3_ok_shape {fs : FS} {final_mp3 : String} {info : Info} {p : String}
    (h : resolveFinalMp3 fs final_mp3 info = .ok p) :
    p = final_mp3 ∨ ∃ c, p = (splitext c).1 ++ ".mp3" := by
  simp only [resolveFinalMp3] at h
  by_cases h1 : fs.isFile final_mp3 = true
  · rw [if_neg (not_not_intro h1), if_pos h1] at h
    exact Or.inl (Except.ok.inj h).symm
  · rw [if_pos h1] at h
    rcases h2 : firstTruthy info.requested_downloads with _ | cand
    · simp only [h2] at h
      rw [if_neg h1] at h
      exact Except.noConfusion h
    · simp only [h2] at h
      by_cases h3 : fs.isFile ((splitext cand).1 ++ ".mp3") = true
      · rw [if_pos h3, if_pos h3] at h
        exact Or.inr ⟨cand, (Except.ok.inj h).symm⟩
      · rw [if_neg h3, if_neg h1] at h
        exact Except.noConfusion h

/-- Every successful primary result ends in `.mp3`. -/
theorem primaryAttempt_ok_mp3 {env : Env} {output_dir p : String}
    (h : primaryAttempt env output_dir = .ok p) : ∃ t, p = t ++ ".mp3" := by
  unfold primaryAttempt at h
  split at h
  · exact Except.noConfusion h
  · rcases resolveFinalMp3_ok_shape h with h1 | ⟨c, h1⟩
    · subst h1
      exact joinPath_mp3 _ _
    · exact ⟨(splitext c).1, h1⟩

/-- Every successful raw fallback result ends in `.mp3`. -/
theorem try_pytube_fallback_raw_ok_mp3 {env : Env} {p : String}
    (h : (try_pytube_fallback_raw env).1 = .ok p) : ∃ t, p = t ++ ".mp3" := by
  simp only [try_pytube_fallback_raw] at h
  split at h
  · exact Except.noConfusion h
  · split at h
    · exact Except.noConfusion h
    · split at h
      · exact Except.noConfusion h
      · split at h
        · exact Except.noConfusion h
        · split at h
          · exact Except.noConfusion h
          · split at h
            · split at h
              · exact Except.noConfusion h
              · exact ⟨_, (Except.ok.inj h).symm⟩
            · exact ⟨_, (Except.ok.inj h).symm⟩

/-- Every successful fallback result ends in `.mp3`. -/
theorem try_pytube_fallback_ok_mp3 {env : Env} {url output_dir p : String}
    (h : (try_pytube_fallback env url output_dir).1 = .ok p) : ∃ t, p = t ++ ".mp3" := by
  unfold try_pytube_fallback at h
  split at h
  · exact Except.noConfusion h
  · next q fx heq =>
      have : (try_pytube_fallback_raw env).1 = .ok q := by rw [heq]
      rcases try_pytube_fallback_raw_ok_mp3 this with ⟨t, ht⟩
      exact ⟨t, (Except.ok.inj h).symm ▸ ht⟩

/-- Every successful result of `download_mp3` ends in `.mp3`. -/
theorem download_mp3_ok_mp3 {env : Env} {url output_dir p : String}
    (h : (download_mp3 env url output_dir).1 = .ok p) : ∃ t, p = t ++ ".mp3" := by
  simp only [download_mp3] at h
  split at h
  · exact Except.noConfusion h
  · split at h
    · next heq =>
        exact (Except.ok.inj h) ▸ primaryAttempt_ok_mp3 heq
    · split at h
      · split at h
        · next heq =>
            exact (Except.ok.inj h) ▸ try_pytube_fallback_ok_mp3 heq
        · exact Except.noConfusion h
      · split at h
        · next heq =>
            exact (Except.ok.inj h) ▸ try_pytube_fallback_ok_mp3 heq
        · exact Except.noConfusion h

/-! ### Concrete worlds for instantiation -/

/-- A filesystem holding exactly one file, the mp3 the primary pass
produced, with content bytes `[73, 68, 51]`. -/
def fsHappy : FS :=
  { isFile := fun p => p == "downloads/song_[abc123].mp3",
    isDir := fun _ => false,
    content := fun p => if p == "downloads/song_[abc123].mp3" then [73, 68, 51] else [] }

/-- A world where ffmpeg is on PATH and the yt-dlp pass succeeds with
the predicted output file present. -/
def envHappy : Env :=
  { ffmpegPathVar := none, isWindows := false, fs := fsHappy,
    whichFfmpeg := some "/usr/bin/ffmpeg",
    imageioExe := .error "unavailable",
    extractInfo := .ok { sanitizedStem := "song_[abc123]", requested_downloads := [] },
    pytubeInit := .ok (), audioStreamAvailable := true,
    pytubeDownload := .ok "downloads/song_[abc123].webm",
    transcodeResult := .ok (), intermediateExists := true, removeResult := .ok () }

/-! ### C1 -/

/-- C1: for every successful call of `download_mp3_bytes`, the returned
filename's extension is exactly `.mp3`, the filename is the basename of
the resolved path, and the returned bytes are the full content of the
resolved file on disk at the moment of read. -/
theorem download_mp3_bytes_mp3_extension_and_content
    (env : Env) (url output_dir fn : String) (data : List Nat)
    (h : download_mp3_bytes env url output_dir = .ok (fn, data)) :
    extension fn = ".mp3" ∧
    ∃ mp3_path, (download_mp3 env url output_dir).1 = .ok mp3_path ∧
      fn = basename mp3_path ∧ env.fs.isFile mp3_path = true ∧
      data = env.fs.content mp3_path := by
  unfold download_mp3_bytes at h
  split at h
  · exact Except.noConfusion h
  · next mp3_path heq =>
      unfold readBytes at h
      by_cases hfile : env.fs.isFile mp3_path = true
      · rw [if_pos hfile] at h
        have hpair := Except.ok.inj h
        have hfn : fn = basename mp3_path := (congrArg Prod.fst hpair).symm
        have hdata : data = env.fs.content mp3_path := (congrArg Prod.snd hpair).symm
        refine ⟨?_, mp3_path, heq, hfn, hfile, hdata⟩
        rcases download_mp3_ok_mp3 heq with ⟨t, ht⟩
        rw [hfn, ht, basename_append_mp3]
        exact extension_append_mp3 _
      · rw [if_neg hfile] at h
        exact Except.noConfusion h

/-- C1 at a concrete world: the happy-path request returns the file
`song_[abc123].mp3` with its three content bytes. -/
theorem download_mp3_bytes_mp3_extension_and_content_instance :
    extension "song_[abc123].mp3" = ".mp3" ∧
    ∃ mp3_path, (download_mp3 envHappy "https://youtu.be/abc123" "downloads").1 = .ok mp3_path ∧
      "song_[abc123].mp3" = basename mp3_path ∧ envHappy.fs.isFile mp3_path = true ∧
      [73, 68, 51] = envHappy.fs.content mp3_path :=
  download_mp3_bytes_mp3_extension_and_content envHappy "https://youtu.be/abc123" "downloads"
    "song_[abc123].mp3" [73, 68, 51] (by rfl)

/-- `download_mp3` after a primary-strategy exception `e` (with the
ffmpeg setup having succeeded): the pytube fallback decides the outcome,
and the fallback invocation is recorded in the trace. -/
theorem download_mp3_primary_error
    (env : Env) (url output_dir e : String) (loc : Option String)
    (h1 : resolve_ffmpeg_location env = .ok loc)
    (h2 : primaryAttempt env output_dir = .error e) :
    download_mp3 env url output_dir =
      ((match (try_pytube_fallback env url output_dir).1 with
        | .ok p => .ok p
        | .error pytube_error =>
            if matchesBlockingPattern e then .error (msgBoth e pytube_error)
            else .error (msgDownloadFailed e)),
       Effect.fallbackInvokedEff :: (try_pytube_fallback env url output_dir).2) := by
  simp only [download_mp3, h1, h2]
  by_cases hm : matchesBlockingPattern e = true
  · rcases hfb : (try_pytube_fallback env url output_dir).1 with pe | p <;>
      simp only [hm, hfb, if_pos, ite_true]
  · rcases hfb : (try_pytube_fallback env url output_dir).1 with pe | p <;>
      simp only [hm, hfb, if_neg, ite_false, Bool.not_eq_true]

/-- The combined both-failed message contains the truncations of both
strategies' failure texts. -/
theorem msgBoth_contains (e pe : String) :
    containsSubstr (msgBoth e pe) (strTake e 200) = true ∧
    containsSubstr (msgBoth e pe) (strTake pe 200) = true := by
  constructor
  · have hshape : msgBoth e pe
        = msgBothPre ++ strTake e 200
            ++ (msgBothMid ++ strTake pe 200 ++ msgBothTail) := by
      simp [msgBoth, str_append_assoc]
    rw [hshape]
    exact containsSubstr_piece _ _ _
  · have hshape : msgBoth e pe
        = (msgBothPre ++ strTake e 200 ++ msgBothMid) ++ strTake pe 200 ++ msgBothTail := by
      simp [msgBoth, str_append_assoc]
    rw [hshape]
    exact containsSubstr_piece _ _ _

/-- An empty filesystem. -/
def fsEmpty : FS :=
  { isFile := fun _ => false, isDir := fun _ => false, content := fun _ => [] }

/-- A world where the yt-dlp pass raises an error matching no blocking
signature and the pytube fallback finds no audio stream. -/
def envBothFailNoMatch : Env :=
  { ffmpegPathVar := none, isWindows := false, fs := fsEmpty,
    whichFfmpeg := some "/usr/bin/ffmpeg",
    imageioExe := .error "unavailable",
    extractInfo := .error "boom",
    pytubeInit := .ok (), audioStreamAvailable := false,
    pytubeDownload := .error "not reached",
    transcodeResult := .ok (), intermediateExists := false, removeResult := .ok () }

/-- A world where the yt-dlp pass raises "HTTP Error 429" and the pytube
fallback runs through cleanly. -/
def envFallbackOk : Env :=
  { ffmpegPathVar := none, isWindows := false, fs := fsEmpty,
    whichFfmpeg := some "/usr/bin/ffmpeg",
    imageioExe := .error "unavailable",
    extractInfo := .error "HTTP Error 429: Too Many Requests",
    pytubeInit := .ok (), audioStreamAvailable := true,
    pytubeDownload := .ok "downloads/track.webm",
    transcodeResult := .ok (), intermediateExists := true, removeResult := .ok () }

/-! ### C2 -/

/-- C2 counterexample: when the primary error text ("boom") matches no
blocking signature and the pytube fallback also fails, the surfaced
message is the original-error-only message and references neither the
fallback's wrapper text nor its cause, contradicting the claim that a
combined message referencing both causes is surfaced regardless of which
failure signature matched. -/
theorem nonmatching_error_message_omits_fallback_cause :
    (download_mp3 envBothFailNoMatch "https://youtu.be/x" "downloads").1
      = .error (msgDownloadFailed "boom") ∧
    (try_pytube_fallback envBothFailNoMatch "https://youtu.be/x" "downloads").1
      = .error "Pytube fallback failed: No audio stream found" ∧
    containsSubstr (msgDownloadFailed "boom") "Pytube fallback failed" = false ∧
    containsSubstr (msgDownloadFailed "boom") "No audio stream" = false :=
  ⟨rfl, rfl, rfl, rfl⟩

/-- C2 amended: when both strategies fail, the surfaced message combines
both failure causes exactly when the primary error text matched a known
blocking signature; for non-matching primary errors only the primary's
cause is surfaced. -/
theorem combined_message_only_for_matching_signatures
    (env : Env) (url output_dir e pe : String) (loc : Option String)
    (h1 : resolve_ffmpeg_location env = .ok loc)
    (h2 : primaryAttempt env output_dir = .error e)
    (h3 : (try_pytube_fallback env url output_dir).1 = .error pe) :
    (matchesBlockingPattern e = true →
      (download_mp3 env url output_dir).1 = .error (msgBoth e pe) ∧
      containsSubstr (msgBoth e pe) (strTake e 200) = true ∧
      containsSubstr (msgBoth e pe) (strTake pe 200) = true) ∧
    (matchesBlockingPattern e = false →
      (download_mp3 env url output_dir).1 = .error (msgDownloadFailed e)) := by
  have hd := download_mp3_primary_error env url output_dir e loc h1 h2
  constructor
  · intro hm
    refine ⟨?_, (msgBoth_contains e pe).1, (msgBoth_contains e pe).2⟩
    rw [hd]
    simp only [h3, hm, ite_true]
  · intro hm
    rw [hd]
    simp only [h3, hm]
    simp

/-- A world where the yt-dlp pass raises "HTTP Error 429" and the pytube
fallback finds no audio stream (both strategies fail, signature
matched). -/
def envBothFailMatch : Env :=
  { ffmpegPathVar := none, isWindows := false, fs := fsEmpty,
    whichFfmpeg := some "/usr/bin/ffmpeg",
    imageioExe := .error "unavailable",
    extractInfo := .error "HTTP Error 429: Too Many Requests",
    pytubeInit := .ok (), audioStreamAvailable := false,
    pytubeDownload := .error "not reached",
    transcodeResult := .ok (), intermediateExists := false, removeResult := .ok () }

/-- C2 amended, instantiated at a world where the matched-signature
branch is taken. -/
theorem combined_message_only_for_matching_signatures_instance :
    (matchesBlockingPattern "HTTP Error 429: Too Many Requests" = true →
      (download_mp3 envBothFailMatch "https://youtu.be/x" "downloads").1
        = .error (msgBoth "HTTP Error 429: Too Many Requests"
            "Pytube fallback failed: No audio stream found") ∧
      containsSubstr
        (msgBoth "HTTP Error 429: Too Many Requests"
          "Pytube fallback failed: No audio stream found")
        (strTake "HTTP Error 429: Too Many Requests" 200) = true ∧
      containsSubstr
        (msgBoth "HTTP Error 429: Too Many Requests"
          "Pytube fallback failed: No audio stream found")
        (strTake "Pytube fallback failed: No audio stream found" 200) = true) ∧
    (matchesBlockingPattern "HTTP Error 429: Too Many Requests" = false →
      (download_mp3 envBothFailMatch "https://youtu.be/x" "downloads").1
        = .error (msgDownloadFailed "HTTP Error 429: Too Many Requests")) :=
  combined_message_only_for_matching_signatures envBothFailMatch "https://youtu.be/x"
    "downloads" "HTTP Error 429: Too Many Requests"
    "Pytube fallback failed: No audio stream found" none rfl rfl rfl

/-! ### C3 -/

/-- A world where the pytube fallback downloads and transcodes cleanly
but `os.remove` on the intermediate file raises. -/
def envCleanupFails : Env :=
  { ffmpegPathVar := none, isWindows := false, fs := fsEmpty,
    whichFfmpeg := some "/usr/bin/ffmpeg",
    imageioExe := .error "unavailable",
    extractInfo := .error "boom",
    pytubeInit := .ok (), audioStreamAvailable := true,
    pytubeDownload := .ok "downloads/track.webm",
    transcodeResult := .ok (), intermediateExists := true,
    removeResult := .error "[Errno 13] Permission denied" }

/-- C3 counterexample: the transcode succeeded and only the deletion of
the intermediate file failed, yet the fallback surfaces an error instead
of returning the MP3 path — the deletion failure is fatal, not silently
ignored. -/
theorem cleanup_failure_is_fatal_in_fallback :
    envCleanupFails.transcodeResult = .ok () ∧
    (try_pytube_fallback envCleanupFails "https://youtu.be/x" "downloads").1
      = .error "Pytube fallback failed: [Errno 13] Permission denied" ∧
    (try_pytube_fallback envCleanupFails "https://youtu.be/x" "downloads").2
      = [.pytubeDownloadEff "downloads/track.webm",
         .transcodeEff "ffmpeg" "downloads/track.webm" "downloads/track.mp3",
         .removeEff "downloads/track.webm"] :=
  ⟨rfl, rfl, rfl⟩

/-- C3 amended: after a successful transcode the fallback skips the
deletion silently when the intermediate file no longer exists and still
returns the MP3 path (also when the deletion call succeeds); but when
the deletion call itself raises, the exception propagates and the
fallback fails. -/
theorem cleanup_skip_vs_remove_error
    (env : Env) (url output_dir audio_file : String) (loc : Option String)
    (h0 : env.pytubeInit = .ok ()) (h1 : env.audioStreamAvailable = true)
    (h2 : env.pytubeDownload = .ok audio_file)
    (h3 : resolve_ffmpeg_location env = .ok loc)
    (h4 : env.transcodeResult = .ok ()) :
    (env.intermediateExists = false →
      (try_pytube_fallback env url output_dir).1
        = .ok ((splitext audio_file).1 ++ ".mp3")) ∧
    (env.intermediateExists = true → env.removeResult = .ok () →
      (try_pytube_fallback env url output_dir).1
        = .ok ((splitext audio_file).1 ++ ".mp3") ∧
      Effect.removeEff audio_file ∈ (try_pytube_fallback env url output_dir).2) ∧
    (∀ r, env.intermediateExists = true → env.removeResult = .error r →
      (try_pytube_fallback env url output_dir).1
        = .error ("Pytube fallback failed: " ++ r)) := by
  refine ⟨?_, ?_, ?_⟩
  · intro h5
    simp [try_pytube_fallback, try_pytube_fallback_raw, h0, h1, h2, h3, h4, h5]
  · intro h5 h6
    constructor
    · simp [try_pytube_fallback, try_pytube_fallback_raw, h0, h1, h2, h3, h4, h5, h6]
    · simp [try_pytube_fallback, try_pytube_fallback_raw, h0, h1, h2, h3, h4, h5, h6]
  · intro r h5 h6
    simp [try_pytube_fallback, try_pytube_fallback_raw, h0, h1, h2, h3, h4, h5, h6]

/-- C3 amended, instantiated at the world whose cleanup call raises. -/
theorem cleanup_skip_vs_remove_error_instance :
    (envCleanupFails.intermediateExists = false →
      (try_pytube_fallback envCleanupFails "https://youtu.be/x" "downloads").1
        = .ok ((splitext "downloads/track.webm").1 ++ ".mp3")) ∧
    (envCleanupFails.intermediateExists = true → envCleanupFails.removeResult = .ok () →
      (try_pytube_fallback envCleanupFails "https://youtu.be/x" "downloads").1
        = .ok ((splitext "downloads/track.webm").1 ++ ".mp3") ∧
      Effect.removeEff "downloads/track.webm"
        ∈ (try_pytube_fallback envCleanupFails "https://youtu.be/x" "downloads").2) ∧
    (∀ r, envCleanupFails.intermediateExists = true →
      envCleanupFails.removeResult = .error r →
      (try_pytube_fallback envCleanupFails "https://youtu.be/x" "downloads").1
        = .error ("Pytube fallback failed: " ++ r)) :=
  cleanup_skip_vs_remove_error envCleanupFails "https://youtu.be/x" "downloads"
    "downloads/track.webm" none rfl rfl rfl rfl rfl

/-! ### C4 -/

/-- C4: the output resolver (1) returns the predicted path when it
exists; (2) otherwise, when the first recorded `requested_downloads`
filepath stripped of its extension has an existing `.mp3` sibling,
returns that sibling; (3) otherwise fails with the file-not-found-class
error. -/
theorem resolveFinalMp3_algorithm (fs : FS) (predicted : String) (info : Info) :
    (fs.isFile predicted = true →
      resolveFinalMp3 fs predicted info = .ok predicted) ∧
    (∀ cand, fs.isFile predicted = false →
      firstTruthy info.requested_downloads = some cand →
      fs.isFile ((splitext cand).1 ++ ".mp3") = true →
      resolveFinalMp3 fs predicted info = .ok ((splitext cand).1 ++ ".mp3")) ∧
    (fs.isFile predicted = false →
      (∀ cand, firstTruthy info.requested_downloads = some cand →
        fs.isFile ((splitext cand).1 ++ ".mp3") = false) →
      resolveFinalMp3 fs predicted info = .error "MP3 file not created by yt-dlp") := by
  refine ⟨?_, ?_, ?_⟩
  · intro h1
    simp only [resolveFinalMp3]
    rw [if_neg (not_not_intro h1), if_pos h1]
  · intro cand h1 h2 h3
    have hn : ¬ fs.isFile predicted = true := by simp [h1]
    simp only [resolveFinalMp3]
    rw [if_pos hn]
    simp only [h2]
    rw [if_pos h3, if_pos h3]
  · intro h1 hall
    have hn : ¬ fs.isFile predicted = true := by simp [h1]
    simp only [resolveFinalMp3]
    rw [if_pos hn]
    rcases h2 : firstTruthy info.requested_downloads with _ | cand
    · simp only [h2]
      rw [if_neg hn]
    · simp only [h2]
      have h3 : ¬ fs.isFile ((splitext cand).1 ++ ".mp3") = true := by
        simp [hall cand h2]
      rw [if_neg h3, if_neg hn]

/-- Filesystem holding the predicted file. -/
def fsPredicted : FS :=
  { isFile := fun p => p == "downloads/a_[id1].mp3", isDir := fun _ => false,
    content := fun _ => [] }

/-- Filesystem holding only the `.mp3` sibling of the recorded
`requested_downloads` filepath. -/
def fsSibling : FS :=
  { isFile := fun p => p == "downloads/b.mp3", isDir := fun _ => false,
    content := fun _ => [] }

/-- Metadata whose `requested_downloads` records `downloads/b.webm`. -/
def infoRd : Info :=
  { sanitizedStem := "a_[id1]", requested_downloads := [some "downloads/b.webm"] }

/-- C4 instantiated at all three scenarios: prediction hit, sibling hit
after a prediction miss, and nothing found. -/
theorem resolveFinalMp3_algorithm_instance :
    resolveFinalMp3 fsPredicted "downloads/a_[id1].mp3" infoRd
      = .ok "downloads/a_[id1].mp3" ∧
    resolveFinalMp3 fsSibling "downloads/a_[id1].mp3" infoRd
      = .ok ((splitext "downloads/b.webm").1 ++ ".mp3") ∧
    resolveFinalMp3 fsEmpty "downloads/a_[id1].mp3" infoRd
      = .error "MP3 file not created by yt-dlp" :=
  ⟨(resolveFinalMp3_algorithm fsPredicted "downloads/a_[id1].mp3" infoRd).1 rfl,
   (resolveFinalMp3_algorithm fsSibling "downloads/a_[id1].mp3" infoRd).2.1
     "downloads/b.webm" rfl rfl rfl,
   (resolveFinalMp3_algorithm fsEmpty "downloads/a_[id1].mp3" infoRd).2.2 rfl
     (fun cand hc => by
       rw [← Option.some.inj hc]
       rfl)⟩

/-! ### C5 -/

/-- C5: whenever the primary yt-dlp strategy raises an exception (the
ffmpeg setup having succeeded), the pytube fallback is invoked before
any error surfaces — its invocation is recorded in the trace — and if
the fallback succeeds, its MP3 path is the final result; an error text
containing "HTTP Error 429" matches the known blocking signatures. -/
theorem fallback_invoked_on_primary_failure
    (env : Env) (url output_dir e : String) (loc : Option String)
    (h1 : resolve_ffmpeg_location env = .ok loc)
    (h2 : primaryAttempt env output_dir = .error e) :
    Effect.fallbackInvokedEff ∈ (download_mp3 env url output_dir).2 ∧
    (∀ p, (try_pytube_fallback env url output_dir).1 = .ok p →
      (download_mp3 env url output_dir).1 = .ok p) ∧
    (containsSubstr e "HTTP Error 429" = true → matchesBlockingPattern e = true) := by
  have hd := download_mp3_primary_error env url output_dir e loc h1 h2
  refine ⟨?_, ?_, ?_⟩
  · rw [hd]
    exact List.mem_cons_self _ _
  · intro p hp
    rw [hd]
    simp only [hp]
  · intro hc
    unfold matchesBlockingPattern
    refine List.any_eq_true.mpr ⟨"HTTP Error 429", ?_, hc⟩
    simp [blockingPatterns]

/-- C5 instantiated: the primary raises "HTTP Error 429", the fallback
succeeds, and its MP3 path is the final result. -/
theorem fallback_invoked_on_primary_failure_instance :
    Effect.fallbackInvokedEff
      ∈ (download_mp3 envFallbackOk "https://youtu.be/x" "downloads").2 ∧
    (∀ p, (try_pytube_fallback envFallbackOk "https://youtu.be/x" "downloads").1 = .ok p →
      (download_mp3 envFallbackOk "https://youtu.be/x" "downloads").1 = .ok p) ∧
    (containsSubstr "HTTP Error 429: Too Many Requests" "HTTP Error 429" = true →
      matchesBlockingPattern "HTTP Error 429: Too Many Requests" = true) :=
  fallback_invoked_on_primary_failure envFallbackOk "https://youtu.be/x" "downloads"
    "HTTP Error 429: Too Many Requests" none rfl rfl

/-! ### C6 -/

/-- C6: when `FFMPEG_PATH` names a directory, the locator returns that
directory exactly when the platform-appropriate executable exists as a
file inside it, and otherwise fails with the configuration error whose
message mentions the expected binary name — never a silent fallback to
the remaining strategies. -/
theorem override_directory_requires_executable
    (env : Env) (loc : String)
    (h1 : env.ffmpegPathVar = some loc) (h2 : loc ≠ "")
    (h3 : env.fs.isDir loc = true) :
    (env.fs.isFile (joinPath loc (exeName env)) = true →
      resolve_ffmpeg_location env = .ok (some loc)) ∧
    (env.fs.isFile (joinPath loc (exeName env)) = false →
      resolve_ffmpeg_location env = .error (dirMissingMsg loc (exeName env)) ∧
      containsSubstr (dirMissingMsg loc (exeName env)) (exeName env) = true) := by
  constructor
  · intro h4
    simp only [resolve_ffmpeg_location, h1]
    rw [if_pos h2, if_pos h3, if_pos h4]
  · intro h4
    constructor
    · simp only [resolve_ffmpeg_location, h1]
      rw [if_pos h2, if_pos h3, if_neg (by simp [h4])]
    · unfold dirMissingMsg
      exact containsSubstr_piece _ _ _

/-- Filesystem with `/opt/ffmpeg` as a directory containing the
executable `/opt/ffmpeg/ffmpeg`. -/
def fsDirWithExe : FS :=
  { isFile := fun p => p == "/opt/ffmpeg/ffmpeg",
    isDir := fun p => p == "/opt/ffmpeg", content := fun _ => [] }

/-- Filesystem with `/opt/ffmpeg` as a directory holding nothing. -/
def fsDirEmpty : FS :=
  { isFile := fun _ => false, isDir := fun p => p == "/opt/ffmpeg",
    content := fun _ => [] }

/-- A world whose `FFMPEG_PATH` names the directory `/opt/ffmpeg`
containing the executable. -/
def envDirWithExe : Env :=
  { ffmpegPathVar := some "/opt/ffmpeg", isWindows := false, fs := fsDirWithExe,
    whichFfmpeg := none, imageioExe := .error "unavailable",
    extractInfo := .error "not reached",
    pytubeInit := .ok (), audioStreamAvailable := false,
    pytubeDownload := .error "not reached",
    transcodeResult := .ok (), intermediateExists := false, removeResult := .ok () }

/-- A world whose `FFMPEG_PATH` names the directory `/opt/ffmpeg`
missing the executable. -/
def envDirNoExe : Env :=
  { ffmpegPathVar := some "/opt/ffmpeg", isWindows := false, fs := fsDirEmpty,
    whichFfmpeg := none, imageioExe := .error "unavailable",
    extractInfo := .error "not reached",
    pytubeInit := .ok (), audioStreamAvailable := false,
    pytubeDownload := .error "not reached",
    transcodeResult := .ok (), intermediateExists := false, removeResult := .ok () }

/-- C6 instantiated at the directory missing the executable. -/
theorem override_directory_requires_executable_instance :
    (envDirNoExe.fs.isFile (joinPath "/opt/ffmpeg" (exeName envDirNoExe)) = true →
      resolve_ffmpeg_location envDirNoExe = .ok (some "/opt/ffmpeg")) ∧
    (envDirNoExe.fs.isFile (joinPath "/opt/ffmpeg" (exeName envDirNoExe)) = false →
      resolve_ffmpeg_location envDirNoExe
        = .error (dirMissingMsg "/opt/ffmpeg" (exeName envDirNoExe)) ∧
      containsSubstr (dirMissingMsg "/opt/ffmpeg" (exeName envDirNoExe))
        (exeName envDirNoExe) = true) :=
  override_directory_requires_executable envDirNoExe "/opt/ffmpeg" rfl
    (by decide) rfl

/-! ### C7 -/

/-- C7: when `FFMPEG_PATH` names an existing file (not a directory), the
locator accepts and returns it as-is exactly when its basename starts
with "ffmpeg" case-insensitively; otherwise it fails with the
configuration error — it neither accepts the file nor skips to the
remaining discovery strategies. -/
theorem override_file_basename_validation
    (env : Env) (loc : String)
    (h1 : env.ffmpegPathVar = some loc) (h2 : loc ≠ "")
    (h3 : env.fs.isDir loc = false) (h4 : env.fs.isFile loc = true) :
    (strStartsWith (lowerStr (basename loc)) "ffmpeg" = true →
      resolve_ffmpeg_location env = .ok (some loc)) ∧
    (strStartsWith (lowerStr (basename loc)) "ffmpeg" = false →
      resolve_ffmpeg_location env = .error (invalidPathMsg loc)) := by
  constructor
  · intro h5
    simp only [resolve_ffmpeg_location, h1]
    rw [if_pos h2, if_neg (by simp [h3]), if_pos ⟨h4, h5⟩]
  · intro h5
    simp only [resolve_ffmpeg_location, h1]
    rw [if_pos h2, if_neg (by simp [h3]), if_neg (by simp [h5])]

/-- Filesystem where `/opt/tools/FFmpeg-6.0` and `/opt/tools/avconv`
exist as files. -/
def fsTwoBinaries : FS :=
  { isFile := fun p => p == "/opt/tools/FFmpeg-6.0" || p == "/opt/tools/avconv",
    isDir := fun _ => false, content := fun _ => [] }

/-- A world whose `FFMPEG_PATH` names the file `/opt/tools/avconv`,
whose basename does not start with "ffmpeg". -/
def envFileBadName : Env :=
  { ffmpegPathVar := some "/opt/tools/avconv", isWindows := false,
    fs := fsTwoBinaries,
    whichFfmpeg := some "/usr/bin/ffmpeg", imageioExe := .error "unavailable",
    extractInfo := .error "not reached",
    pytubeInit := .ok (), audioStreamAvailable := false,
    pytubeDownload := .error "not reached",
    transcodeResult := .ok (), intermediateExists := false, removeResult := .ok () }

/-- A world whose `FFMPEG_PATH` names the file `/opt/tools/FFmpeg-6.0`,
whose basename starts with "ffmpeg" case-insensitively. -/
def envFileGoodName : Env :=
  { ffmpegPathVar := some "/opt/tools/FFmpeg-6.0", isWindows := false,
    fs := fsTwoBinaries,
    whichFfmpeg := some "/usr/bin/ffmpeg", imageioExe := .error "unavailable",
    extractInfo := .error "not reached",
    pytubeInit := .ok (), audioStreamAvailable := false,
    pytubeDownload := .error "not reached",
    transcodeResult := .ok (), intermediateExists := false, removeResult := .ok () }

/-- C7 instantiated at the badly named override file (and, through the
same conjunction, the accept direction is vacuously closed there). -/
theorem override_file_basename_validation_instance :
    (strStartsWith (lowerStr (basename "/opt/tools/avconv")) "ffmpeg" = true →
      resolve_ffmpeg_location envFileBadName = .ok (some "/opt/tools/avconv")) ∧
    (strStartsWith (lowerStr (basename "/opt/tools/avconv")) "ffmpeg" = false →
      resolve_ffmpeg_location envFileBadName = .error (invalidPathMsg "/opt/tools/avconv")) :=
  override_file_basename_validation envFileBadName "/opt/tools/avconv" rfl
    (by decide) rfl rfl

/-! ### C8 -/

/-- C8: with no truthy `FFMPEG_PATH` override, the tool absent from the
executable search path, and the `imageio_ffmpeg` fallback unavailable or
failing to yield an existing executable file, the locator fails with the
not-found error that names all three strategies (PATH, FFMPEG_PATH,
imageio-ffmpeg). -/
theorem no_tool_found_lists_strategies
    (env : Env)
    (h1 : truthyOpt env.ffmpegPathVar = false)
    (h2 : truthyOpt env.whichFfmpeg = false)
    (h3 : (∃ msg, env.imageioExe = .error msg) ∨
      ∃ f, env.imageioExe = .ok f ∧ (f = "" ∨ env.fs.isFile f = false)) :
    resolve_ffmpeg_location env = .error ffmpegNotFoundMsg ∧
    containsSubstr ffmpegNotFoundMsg "PATH" = true ∧
    containsSubstr ffmpegNotFoundMsg "FFMPEG_PATH" = true ∧
    containsSubstr ffmpegNotFoundMsg "imageio-ffmpeg" = true := by
  have htail : resolveTail env = .error ffmpegNotFoundMsg := by
    unfold resolveTail
    rw [if_neg (by simp [h2])]
    rcases h3 with ⟨msg, hmsg⟩ | ⟨f, hf, hbad⟩
    · rw [hmsg]
    · simp only [hf]
      rcases hbad with hb | hb
      · rw [if_neg (by simp [hb])]
      · rw [if_neg (by simp [hb])]
  refine ⟨?_, rfl, rfl, rfl⟩
  rcases hv : env.ffmpegPathVar with _ | loc
  · simp only [resolve_ffmpeg_location, hv]
    exact htail
  · have hloc : loc = "" := by
      rw [hv] at h1
      simpa [truthyOpt] using h1
    simp only [resolve_ffmpeg_location, hv]
    rw [if_neg (by simp [hloc])]
    exact htail

/-- A world where no discovery strategy can find ffmpeg. -/
def envNoTool : Env :=
  { ffmpegPathVar := none, isWindows := false, fs := fsEmpty,
    whichFfmpeg := none,
    imageioExe := .error "No module named imageio_ffmpeg",
    extractInfo := .error "not reached",
    pytubeInit := .ok (), audioStreamAvailable := false,
    pytubeDownload := .error "not reached",
    transcodeResult := .ok (), intermediateExists := false, removeResult := .ok () }

/-- C8 instantiated at the world with no discoverable tool. -/
theorem no_tool_found_lists_strategies_instance :
    resolve_ffmpeg_location envNoTool = .error ffmpegNotFoundMsg ∧
    containsSubstr ffmpegNotFoundMsg "PATH" = true ∧
    containsSubstr ffmpegNotFoundMsg "FFMPEG_PATH" = true ∧
    containsSubstr ffmpegNotFoundMsg "imageio-ffmpeg" = true :=
  no_tool_found_lists_strategies envNoTool rfl rfl
    (Or.inl ⟨"No module named imageio_ffmpeg", rfl⟩)

/-! ### C9 -/

/-- C9: when the extraction library offers no audio-only stream, the
pytube fallback fails immediately with the "No audio stream found"
cause (wrapped as a fallback failure) and performs no effect at all: no
stream is downloaded and the transcoding tool is never invoked. -/
theorem no_audio_stream_fails_immediately
    (env : Env) (url output_dir : String)
    (h1 : env.pytubeInit = .ok ()) (h2 : env.audioStreamAvailable = false) :
    try_pytube_fallback env url output_dir
      = (.error "Pytube fallback failed: No audio stream found", []) := by
  simp [try_pytube_fallback, try_pytube_fallback_raw, h1, h2]

/-- A world where pytube reports no audio-only stream. -/
def envNoStream : Env :=
  { ffmpegPathVar := none, isWindows := false, fs := fsEmpty,
    whichFfmpeg := some "/usr/bin/ffmpeg",
    imageioExe := .error "unavailable",
    extractInfo := .error "not reached",
    pytubeInit := .ok (), audioStreamAvailable := false,
    pytubeDownload := .error "not reached",
    transcodeResult := .ok (), intermediateExists := false, removeResult := .ok () }

/-- C9 instantiated at a world without an audio-only stream. -/
theorem no_audio_stream_fails_immediately_instance :
    try_pytube_fallback envNoStream "https://youtu.be/x" "downloads"
      = (.error "Pytube fallback failed: No audio stream found", []) :=
  no_audio_stream_fails_immediately envNoStream "https://youtu.be/x" "downloads" rfl rfl

/-! ### C10 -/

/-- C10: when the yt-dlp pass completes (`extract_info` succeeds) but
the output resolution finds no existing `.mp3`, `download_mp3` does not
fail at that point: the internal resolution error is caught, the pytube
fallback is invoked, the fallback's success becomes the final result,
and the caller sees an error only when the fallback also fails. -/
theorem resolution_failure_triggers_fallback
    (env : Env) (url output_dir res_e : String) (loc : Option String) (info : Info)
    (h1 : resolve_ffmpeg_location env = .ok loc)
    (h2 : env.extractInfo = .ok info)
    (h3 : resolveFinalMp3 env.fs (predictedPath output_dir info) info = .error res_e) :
    Effect.fallbackInvokedEff ∈ (download_mp3 env url output_dir).2 ∧
    (∀ p, (try_pytube_fallback env url output_dir).1 = .ok p →
      (download_mp3 env url output_dir).1 = .ok p) ∧
    (∀ pe, (try_pytube_fallback env url output_dir).1 = .error pe →
      ∃ m, (download_mp3 env url output_dir).1 = .error m) := by
  have hp : primaryAttempt env output_dir = .error res_e := by
    simp only [primaryAttempt, h2]
    exact h3
  have hd := download_mp3_primary_error env url output_dir res_e loc h1 hp
  refine ⟨?_, ?_, ?_⟩
  · rw [hd]
    exact List.mem_cons_self _ _
  · intro p hp2
    rw [hd]
    simp only [hp2]
  · intro pe hpe
    rw [hd]
    simp only [hpe]
    by_cases hm : matchesBlockingPattern res_e = true
    · exact ⟨msgBoth res_e pe, by simp [hm]⟩
    · exact ⟨msgDownloadFailed res_e, by simp [hm]⟩

/-- A world where the yt-dlp pass succeeds but neither the predicted
path nor a `requested_downloads` sibling exists on disk (empty
filesystem), and the pytube fallback succeeds. -/
def envResolveMiss : Env :=
  { ffmpegPathVar := none, isWindows := false, fs := fsEmpty,
    whichFfmpeg := some "/usr/bin/ffmpeg",
    imageioExe := .error "unavailable",
    extractInfo := .ok { sanitizedStem := "video_[xyz]",
                         requested_downloads := [some "downloads/video.webm"] },
    pytubeInit := .ok (), audioStreamAvailable := true,
    pytubeDownload := .ok "downloads/track.webm",
    transcodeResult := .ok (), intermediateExists := true, removeResult := .ok () }

/-- C10 instantiated at the world whose resolution finds nothing. -/
theorem resolution_failure_triggers_fallback_instance :
    Effect.fallbackInvokedEff
      ∈ (download_mp3 envResolveMiss "https://youtu.be/x" "downloads").2 ∧
    (∀ p, (try_pytube_fallback envResolveMiss "https://youtu.be/x" "downloads").1 = .ok p →
      (download_mp3 envResolveMiss "https://youtu.be/x" "downloads").1 = .ok p) ∧
    (∀ pe, (try_pytube_fallback envResolveMiss "https://youtu.be/x" "downloads").1
        = .error pe →
      ∃ m, (download_mp3 envResolveMiss "https://youtu.be/x" "downloads").1 = .error m) :=
  resolution_failure_triggers_fallback envResolveMiss "https://youtu.be/x" "downloads"
    "MP3 file not created by yt-dlp" none
    { sanitizedStem := "video_[xyz]", requested_downloads := [some "downloads/video.webm"] }
    rfl rfl rfl
